import Mathlib

/-
Verification of json_syntax/attrs.py: the three composite-type rules
attrs_classes, named_tuples and tuples. The embedding models Python values,
type descriptors (duck-typed capability slots the rules probe), the external
resolution context, and the artifacts the rules return. A functools bound
call such as check_isinst with typ bound is represented as an Artifact
constructor holding the bound arguments.
-/

namespace JsonSyntax

/-- A JSON-like or native Python value. vobj is an instance of an attrs or
dataclass class tagged with its class name; vtup is a tuple, tagged with a
class name when it is a namedtuple instance. -/
inductive Value : Type where
  | vnone : Value
  | vbool : Bool → Value
  | vint : Int → Value
  | vstr : String → Value
  | vlist : List Value → Value
  | vdict : List (String × Value) → Value
  | vobj : String → List (String × Value) → Value
  | vtup : Option String → List Value → Value

/-- A default slot for a field. Dflt.sentinel models the distinguished absent
markers (attr.NOTHING, dataclasses.MISSING and helpers.SENTINEL), each of
which stands for the absence of a declared default and is distinct from every
legitimate value. -/
inductive Dflt : Type where
  | sentinel : Dflt
  | value : Value → Dflt

mutual

/-- A declared field type annotation: None, a forward reference (a string
that could not be resolved at declaration time), or a concrete type. -/
inductive TypeAnn : Type where
  | noneAnn : TypeAnn
  | fwd : String → TypeAnn
  | ty : Ty → TypeAnn

/-- An element of typ.__args__ for a Tuple[...] generic: a type annotation or
the Ellipsis marker of a homogeneous variable-arity tuple. -/
inductive TupleArg : Type where
  | ellipsis : TupleArg
  | ann : TypeAnn → TupleArg

/-- One attrs attribute or dataclass field: name, declared type, default slot
and init-participation flag. -/
inductive AttrsField : Type where
  | mk : String → TypeAnn → Dflt → Bool → AttrsField

/-- A Python type as the rules see it, as a bundle of capability slots:
the class name; __attrs_attrs__; __dataclass_fields__.values(); whether the
type is a tuple subclass (issub_safe(typ, tuple)); _field_types.items();
_fields; _fields_defaults; _field_defaults; __args__ when the type is a
Tuple[...] generic (has_origin(typ, tuple)); the __json_pre_decode__ hook;
whether a __json_post_encode__ attribute exists; the __json_check__ hook; and
the module namespace against which forward references resolve. -/
inductive Ty : Type where
  | mk : String
      → Option (List AttrsField)
      → Option (List AttrsField)
      → Bool
      → Option (List (String × TypeAnn))
      → Option (List String)
      → List (String × Value)
      → List (String × Value)
      → Option (List TupleArg)
      → Option (Value → Value)
      → Bool
      → Option (Value → Bool)
      → List (String × Ty)
      → Ty

end

def AttrsField.name : AttrsField → String
  | AttrsField.mk n _ _ _ => n

def AttrsField.type : AttrsField → TypeAnn
  | AttrsField.mk _ t _ _ => t

def AttrsField.default : AttrsField → Dflt
  | AttrsField.mk _ _ d _ => d

def AttrsField.init : AttrsField → Bool
  | AttrsField.mk _ _ _ i => i

def Ty.name : Ty → String
  | Ty.mk n _ _ _ _ _ _ _ _ _ _ _ _ => n

def Ty.attrs_attrs : Ty → Option (List AttrsField)
  | Ty.mk _ a _ _ _ _ _ _ _ _ _ _ _ => a

def Ty.dataclass_fields : Ty → Option (List AttrsField)
  | Ty.mk _ _ d _ _ _ _ _ _ _ _ _ _ => d

def Ty.tuple_subclass : Ty → Bool
  | Ty.mk _ _ _ s _ _ _ _ _ _ _ _ _ => s

def Ty.field_types : Ty → Option (List (String × TypeAnn))
  | Ty.mk _ _ _ _ f _ _ _ _ _ _ _ _ => f

def Ty.fields_list : Ty → Option (List String)
  | Ty.mk _ _ _ _ _ f _ _ _ _ _ _ _ => f

def Ty.fields_defaults : Ty → List (String × Value)
  | Ty.mk _ _ _ _ _ _ d _ _ _ _ _ _ => d

def Ty.field_defaults : Ty → List (String × Value)
  | Ty.mk _ _ _ _ _ _ _ d _ _ _ _ _ => d

def Ty.tuple_args : Ty → Option (List TupleArg)
  | Ty.mk _ _ _ _ _ _ _ _ a _ _ _ _ => a

def Ty.json_pre_decode : Ty → Option (Value → Value)
  | Ty.mk _ _ _ _ _ _ _ _ _ p _ _ _ => p

def Ty.has_json_post_encode : Ty → Bool
  | Ty.mk _ _ _ _ _ _ _ _ _ _ p _ _ => p

def Ty.json_check : Ty → Option (Value → Bool)
  | Ty.mk _ _ _ _ _ _ _ _ _ _ _ c _ => c

def Ty.env : Ty → List (String × Ty)
  | Ty.mk _ _ _ _ _ _ _ _ _ _ _ _ e => e

/-- Verbs are plain strings in json_syntax (helpers.py constants). -/
abbrev Verb := String

def JSON2PY : Verb := "json_to_python"

def PY2JSON : Verb := "python_to_json"

def INSP_JSON : Verb := "inspect_json"

def INSP_PY : Verb := "inspect_python"

def PATTERN : Verb := "show_pattern"

/-- The five supported verbs, as tested by each rule's opening guard. -/
def five_verbs : List Verb := [JSON2PY, PY2JSON, INSP_PY, INSP_JSON, PATTERN]

/-- The verb-dependent tail of an inner_map entry: nothing for the decode
verb, the recorded default for the encode verb, the required flag for the
JSON-validate and pattern verbs. -/
inductive Extra : Type where
  | nil : Extra
  | dflt : Dflt → Extra
  | req : Bool → Extra

/-- Truthiness test of the third tuple slot, as used by the pattern branches
(`for name, inner, req in inner_map if req`). -/
def Extra.isReq : Extra → Bool
  | Extra.req b => b
  | _ => false

/-- The builtin constructor bound as con by the tuples rule. -/
inductive PyCon : Type where
  | tuple : PyCon
  | list : PyCon

/-- The artifacts the rules return. Each bound-call constructor names the
action_v1 function that functools binds, holding the bound arguments; the
pattern constructors name the pattern-module constructors. ext is an opaque
artifact produced by the external resolution context, and py_callable is a
bare class attribute (the __json_check__ hook) returned as the artifact. -/
inductive Artifact : Type where
  | check_isinst : Ty → Artifact
  | convert_dict_to_attrs : (Value → Value) → List (String × Option Artifact × Extra) → Ty → Artifact
  | convert_attrs_to_dict : Option String → List (String × Option Artifact × Extra) → Artifact
  | check_dict : (Value → Value) → List (String × Option Artifact × Extra) → Artifact
  | convert_tuple_as_list : List (Option Artifact) → PyCon → Artifact
  | check_tuple_as_list : List (Option Artifact) → PyCon → Artifact
  | objectExact : List (Artifact × Option Artifact) → Artifact
  | arrayExact : List (Option Artifact) → Artifact
  | stringExact : String → Artifact
  | unkown : Artifact
  | py_callable : (Value → Bool) → Artifact
  | ext : Nat → Artifact

/-- Shape test: is this artifact an isinstance-style check bound to a type. -/
def Artifact.is_check_isinst : Artifact → Bool
  | Artifact.check_isinst _ => true
  | _ => false

/-- The external resolution context. lookup may return none (Python None)
when no rule matches; accept_missing_default is the default value of the
accept_missing keyword in the context's lookup signature, used when a rule
omits the flag at the call site. -/
structure Ctx : Type where
  lookup : Verb → TypeAnn → Bool → Option Artifact
  accept_missing_default : Bool

/-- helpers.identity: the identity function. -/
def identity (value : Value) : Value := value

/-- The attribute name bound as post_hook by the encode branch. -/
def json_post_encode_name : String := "__json_post_encode__"

/-- Modelled from the spec: helpers.is_attrs_field_required is not under src.
Spec 3 Data Model: required == (default == ABSENT_MARKER). -/
def is_attrs_field_required (field : AttrsField) : Bool :=
  match field.default with
  | Dflt.sentinel => true
  | Dflt.value _ => false

/-- Modelled from the spec: helpers.resolve_fwd_ref is not under src. Spec 6
External Interfaces: resolve(declared_type, owner_type) -> concrete_type,
resolving a deferred type name relative to the owning composite type; a
non-forward annotation passes through unchanged, and an unresolvable name is
returned as is. -/
def resolve_fwd_ref (ann : TypeAnn) (owner : Ty) : TypeAnn :=
  match ann with
  | TypeAnn.fwd s =>
    match List.lookup s owner.env with
    | some t => TypeAnn.ty t
    | none => TypeAnn.fwd s
  | _ => ann

/-- Modelled from the spec: the isinstance primitive behind
action_v1.check_isinst is not under src. A native instance carries its class
tag; the check compares tags and looks at nothing else. -/
def isinstance (value : Value) (typ : Ty) : Bool :=
  match value with
  | Value.vobj cls _ => cls == typ.name
  | Value.vtup (some cls) _ => cls == typ.name
  | _ => false

/-- Modelled from the spec: evaluation of the two validator artifacts whose
behavior the claims consult. check_isinst (action_v1, not under src) is the
shallow type-identity check of spec 4.3; a bare py_callable artifact is the
hook itself, applied directly. Other artifact shapes are not evaluated here. -/
def check_eval (a : Artifact) (value : Value) : Option Bool :=
  match a with
  | Artifact.check_isinst typ => some (isinstance value typ)
  | Artifact.py_callable f => some (f value)
  | _ => none

/-- Mirrors attrs.py lines 60-68: read __attrs_attrs__, falling back to
__dataclass_fields__.values(), and signal no match when both are absent. -/
def attrs_fields_of (typ : Ty) : Option (List AttrsField) :=
  match typ.attrs_attrs with
  | some fields => some fields
  | none => typ.dataclass_fields

/-- Mirrors attrs.py lines 125-134: read _field_types.items(), falling back
to [(name, None) for name in _fields]. -/
def named_tuple_fields (typ : Ty) : Option (List (String × TypeAnn)) :=
  match typ.field_types with
  | some fields => some fields
  | none =>
    match typ.fields_list with
    | some names => some (names.map (fun name => (name, TypeAnn.noneAnn)))
    | none => none

/-- Mirrors attrs.py lines 138-140: defaults is an empty dict updated with
_fields_defaults then _field_defaults, so a get consults _field_defaults
first. -/
def defaults_get (typ : Ty) (name : String) : Option Value :=
  match List.lookup name typ.field_defaults with
  | some v => some v
  | none => List.lookup name typ.fields_defaults

/-- The loop body of attrs.py lines 76-85: one inner_map entry for one field
of an attrs class or dataclass. -/
def attrs_entry (verb : Verb) (typ : Ty) (ctx : Ctx) (field : AttrsField) :
    String × Option Artifact × Extra :=
  (field.name,
   ctx.lookup verb (resolve_fwd_ref field.type typ) true,
   if verb = PY2JSON then Extra.dflt field.default
   else if verb = INSP_JSON ∨ verb = PATTERN then
     Extra.req (is_attrs_field_required field)
   else Extra.nil)

/-- The loop of attrs.py lines 73-86: entries for the init fields only. -/
def attrs_inner_map (verb : Verb) (typ : Ty) (ctx : Ctx)
    (fields : List AttrsField) : List (String × Option Artifact × Extra) :=
  fields.filterMap (fun field =>
    if field.init then some (attrs_entry verb typ ctx field) else none)

/-- attrs.py lines 29-112: the attrs_classes rule, with the hook-name
parameters at their default values (no caller in the repository passes
others). -/
def attrs_classes (verb : Verb) (typ : Ty) (ctx : Ctx) : Option Artifact :=
  if verb ∉ five_verbs then none else
  match attrs_fields_of typ with
  | none => none
  | some fields =>
    if verb = INSP_PY then some (Artifact.check_isinst typ) else
    if verb = JSON2PY then
      some (Artifact.convert_dict_to_attrs (typ.json_pre_decode.getD identity)
        (attrs_inner_map verb typ ctx fields) typ)
    else if verb = PY2JSON then
      some (Artifact.convert_attrs_to_dict
        (if typ.has_json_post_encode then some json_post_encode_name else none)
        (attrs_inner_map verb typ ctx fields))
    else if verb = INSP_JSON then
      match typ.json_check with
      | some f => some (Artifact.py_callable f)
      | none =>
        some (Artifact.check_dict (typ.json_pre_decode.getD identity)
          (attrs_inner_map verb typ ctx fields))
    else if verb = PATTERN then
      some (Artifact.objectExact
        (((attrs_inner_map verb typ ctx fields).filter (fun e => Extra.isReq e.2.2)).map
          (fun e => (Artifact.stringExact e.1, some (Option.getD e.2.1 Artifact.unkown)))))
    else none

/-- The loop body of attrs.py lines 142-151: one inner_map entry for one
named-tuple field. -/
def named_entry (verb : Verb) (typ : Ty) (ctx : Ctx) (nt : String × TypeAnn) :
    String × Option Artifact × Extra :=
  (nt.1,
   ctx.lookup verb (resolve_fwd_ref nt.2 typ) true,
   if verb = PY2JSON then
     Extra.dflt (match defaults_get typ nt.1 with
       | some v => Dflt.value v
       | none => Dflt.sentinel)
   else if verb = INSP_JSON ∨ verb = PATTERN then
     Extra.req (!(defaults_get typ nt.1).isSome)
   else Extra.nil)

/-- The loop of attrs.py lines 141-151. -/
def named_inner_map (verb : Verb) (typ : Ty) (ctx : Ctx)
    (fields : List (String × TypeAnn)) : List (String × Option Artifact × Extra) :=
  fields.map (named_entry verb typ ctx)

/-- attrs.py lines 115-169: the named_tuples rule. -/
def named_tuples (verb : Verb) (typ : Ty) (ctx : Ctx) : Option Artifact :=
  if verb ∉ five_verbs ∨ typ.tuple_subclass = false then none else
  match named_tuple_fields typ with
  | none => none
  | some fields =>
    if verb = INSP_PY then some (Artifact.check_isinst typ) else
    if verb = JSON2PY then
      some (Artifact.convert_dict_to_attrs identity
        (named_inner_map verb typ ctx fields) typ)
    else if verb = PY2JSON then
      some (Artifact.convert_attrs_to_dict none (named_inner_map verb typ ctx fields))
    else if verb = INSP_JSON then
      some (Artifact.check_dict identity (named_inner_map verb typ ctx fields))
    else if verb = PATTERN then
      some (Artifact.objectExact
        (((named_inner_map verb typ ctx fields).filter (fun e => Extra.isReq e.2.2)).map
          (fun e => (Artifact.stringExact e.1, e.2.1))))
    else none

/-- Membership test for `Ellipsis in args`. -/
def TupleArg.isEllipsis : TupleArg → Bool
  | TupleArg.ellipsis => true
  | TupleArg.ann _ => false

/-- The annotation carried by a tuple argument; the ellipsis case is
unreachable behind the guard of the tuples rule. -/
def TupleArg.getAnn : TupleArg → TypeAnn
  | TupleArg.ellipsis => TypeAnn.noneAnn
  | TupleArg.ann a => a

/-- The list comprehension of attrs.py line 185: the per-element lookup
passes neither accept_missing nor a resolved annotation, so the raw argument
goes to the context with the context's own default flag. -/
def tuples_inner (verb : Verb) (ctx : Ctx) (args : List TupleArg) :
    List (Option Artifact) :=
  args.map (fun arg => ctx.lookup verb arg.getAnn ctx.accept_missing_default)

/-- attrs.py lines 172-195: the tuples rule. -/
def tuples (verb : Verb) (typ : Ty) (ctx : Ctx) : Option Artifact :=
  if verb ∉ five_verbs then none else
  match typ.tuple_args with
  | none => none
  | some args =>
    if args.any TupleArg.isEllipsis then none else
    if verb = JSON2PY then
      some (Artifact.convert_tuple_as_list (tuples_inner verb ctx args) PyCon.tuple)
    else if verb = PY2JSON then
      some (Artifact.convert_tuple_as_list (tuples_inner verb ctx args) PyCon.list)
    else if verb = INSP_PY then
      some (Artifact.check_tuple_as_list (tuples_inner verb ctx args) PyCon.tuple)
    else if verb = INSP_JSON then
      some (Artifact.check_tuple_as_list (tuples_inner verb ctx args) PyCon.list)
    else if verb = PATTERN then
      some (Artifact.arrayExact (tuples_inner verb ctx args))
    else none

/-! Concrete fixtures, modelled on tests/types_attrs_noann.py. -/

/-- A leaf type with none of the composite capabilities. -/
def Ty.leaf (name : String) : Ty :=
  Ty.mk name none none false none none [] [] none none false none []

def int_ty : Ty := Ty.leaf "int"

def str_ty : Ty := Ty.leaf "str"

/-- Flat1: an attrs class with field a of type int (required) and field b of
type str defaulting to "default". -/
def Flat1_ty : Ty :=
  Ty.mk "Flat1"
    (some [AttrsField.mk "a" (TypeAnn.ty int_ty) Dflt.sentinel true,
           AttrsField.mk "b" (TypeAnn.ty str_ty) (Dflt.value (Value.vstr "default")) true])
    none false none none [] [] none none false none []

/-- The __json_check__ hook of the Hooks fixture. -/
def hook1_check (value : Value) : Bool :=
  match value with
  | Value.vdict entries => entries.any (fun e => e.1 == "_type_")
  | _ => false

/-- The __json_pre_decode__ hook of the Hook1 fixture; deliberately
destructive so that applying it anywhere would be observable. -/
def hook1_pre (_ : Value) : Value := Value.vnone

/-- Hook1: like Flat1 but with __json_pre_decode__, __json_post_encode__ and
__json_check__ defined. -/
def Hook1_ty : Ty :=
  Ty.mk "Hook1"
    (some [AttrsField.mk "a" (TypeAnn.ty int_ty) Dflt.sentinel true,
           AttrsField.mk "b" (TypeAnn.ty str_ty) (Dflt.value (Value.vstr "default")) true])
    none false none none [] [] none (some hook1_pre) true (some hook1_check) []

/-- Named1: a typed NamedTuple with fields a : int and b : str, where b
defaults to "default". -/
def Named1_ty : Ty :=
  Ty.mk "Named1" none none true
    (some [("a", TypeAnn.ty int_ty), ("b", TypeAnn.ty str_ty)])
    (some ["a", "b"]) [] [("b", Value.vstr "default")] none none false none []

/-- Named2: a bare collections.namedtuple with fields a and b: it exposes
_fields but no _field_types annotation table. -/
def Named2_ty : Ty :=
  Ty.mk "Named2" none none true none (some ["a", "b"]) [] [] none none false none []

/-- The generic alias Tuple[int, str]. -/
def tup2_ty : Ty :=
  Ty.mk "Tuple[int, str]" none none false none none [] []
    (some [TupleArg.ann (TypeAnn.ty int_ty), TupleArg.ann (TypeAnn.ty str_ty)])
    none false none []

/-- The generic alias Tuple[int]. -/
def tup1_ty : Ty :=
  Ty.mk "Tuple[int]" none none false none none [] []
    (some [TupleArg.ann (TypeAnn.ty int_ty)]) none false none []

/-- A tuple generic whose single argument is the forward reference "X",
resolvable to int in the owning module namespace. -/
def tupfwd_ty : Ty :=
  Ty.mk "Tuple[X]" none none false none none [] []
    (some [TupleArg.ann (TypeAnn.fwd "X")]) none false none [("X", int_ty)]

/-- The homogeneous variable-arity alias Tuple[int, ...]. -/
def tupell_ty : Ty :=
  Ty.mk "Tuple[int, ...]" none none false none none [] []
    (some [TupleArg.ann (TypeAnn.ty int_ty), TupleArg.ellipsis]) none false none []

/-- A context that never matches and whose accept_missing default is false. -/
def ctx0 : Ctx := Ctx.mk (fun _ _ _ => none) false

/-- A context that reveals the accept_missing flag it received: artifact
ext 0 when the flag is true, ext 1 when it is false; its own default for the
flag is false. -/
def ctx_flag : Ctx := Ctx.mk (fun _ _ b => if b then some (Artifact.ext 0) else some (Artifact.ext 1)) false

/-- Like ctx_flag but answering ext 2 for flag-false lookups. -/
def ctx_flag2 : Ctx := Ctx.mk (fun _ _ b => if b then some (Artifact.ext 0) else some (Artifact.ext 2)) false

/-- A context that reveals whether the annotation it received is still an
unresolved forward reference: ext 1 on a forward reference, ext 0 otherwise. -/
def ctx_fwd : Ctx :=
  Ctx.mk (fun _ t _ =>
    match t with
    | TypeAnn.fwd _ => some (Artifact.ext 1)
    | _ => some (Artifact.ext 0)) true

/-! Claim theorems. -/

/-- C1: counterexample. The tuples rule matches Tuple[int, str], yet its
native-validate artifact is check_tuple_as_list binding the per-element
artifacts, not an isinstance-style check bound to the type. -/
theorem C1_counterexample :
    tuples INSP_PY tup2_ty ctx0
      = some (Artifact.check_tuple_as_list [none, none] PyCon.tuple)
    ∧ Artifact.is_check_isinst
        (Artifact.check_tuple_as_list [none, none] PyCon.tuple) = false :=
  ⟨rfl, rfl⟩

/-- C1 (amended): for every type matched by the record rule or the
named-tuple rule, the native-validate artifact is the shallow isinstance
check bound to the type, and that check never looks at the fields of the
value; for every type matched by the unnamed-tuples rule the native-validate
artifact is instead check_tuple_as_list, binding the elements' own artifacts,
which is not an isinstance-style check. -/
theorem C1_amended (typ : Ty) (ctx : Ctx) (a : Artifact) :
    (attrs_classes INSP_PY typ ctx = some a → a = Artifact.check_isinst typ)
    ∧ (named_tuples INSP_PY typ ctx = some a → a = Artifact.check_isinst typ)
    ∧ (tuples INSP_PY typ ctx = some a →
        a.is_check_isinst = false
        ∧ ∃ inner, a = Artifact.check_tuple_as_list inner PyCon.tuple)
    ∧ (∀ cls fs1 fs2,
        check_eval (Artifact.check_isinst typ) (Value.vobj cls fs1)
          = check_eval (Artifact.check_isinst typ) (Value.vobj cls fs2)) := by
  refine ⟨?_, ?_, ?_, ?_⟩
  · intro h
    unfold attrs_classes at h
    rw [if_neg (by decide)] at h
    split at h
    · exact absurd h (by simp)
    · rw [if_pos rfl] at h
      exact (Option.some.inj h).symm
  · intro h
    unfold named_tuples at h
    split at h
    · exact absurd h (by simp)
    · split at h
      · exact absurd h (by simp)
      · rw [if_pos rfl] at h
        exact (Option.some.inj h).symm
  · intro h
    unfold tuples at h
    rw [if_neg (by decide)] at h
    split at h
    · exact absurd h (by simp)
    · split at h
      · exact absurd h (by simp)
      · rw [if_neg (by decide), if_neg (by decide), if_pos rfl] at h
        refine ⟨?_, _, (Option.some.inj h).symm⟩
        rw [← Option.some.inj h]
        rfl
  · intro cls fs1 fs2
    rfl

/-- C1 (witness): the amended statement evaluated at Flat1, Named1 and
Tuple[int, str]. -/
theorem C1_witness :
    Artifact.check_isinst Flat1_ty = Artifact.check_isinst Flat1_ty
    ∧ Artifact.check_isinst Named1_ty = Artifact.check_isinst Named1_ty
    ∧ (Artifact.check_tuple_as_list [none, none] PyCon.tuple).is_check_isinst = false :=
  ⟨(C1_amended Flat1_ty ctx0 (Artifact.check_isinst Flat1_ty)).1 rfl,
   (C1_amended Named1_ty ctx0 (Artifact.check_isinst Named1_ty)).2.1 rfl,
   ((C1_amended tup2_ty ctx0
      (Artifact.check_tuple_as_list [none, none] PyCon.tuple)).2.2.1 rfl).1⟩

/-- C2: for every record-like type that defines __json_check__, the
JSON-validate artifact returned by the record rule is exactly that hook: no
pre-decode wrapping, no generated field check, and the result on any value is
the hook's own return value. -/
theorem C2_theorem (typ : Ty) (ctx : Ctx) (f : Value → Bool)
    (fields : List AttrsField) (hm : attrs_fields_of typ = some fields)
    (hc : typ.json_check = some f) :
    attrs_classes INSP_JSON typ ctx = some (Artifact.py_callable f)
    ∧ ∀ v, check_eval (Artifact.py_callable f) v = some (f v) := by
  constructor
  · simp only [attrs_classes, hm, hc, reduceIte]
    rw [if_neg (by decide), if_neg (by decide), if_neg (by decide),
      if_neg (by decide)]
  · intro v
    rfl

/-- C2 (witness): at Hook1, whose hooks include a destructive pre-decode, the
JSON-validate artifact is the bare __json_check__ hook itself. -/
theorem C2_witness :
    attrs_classes INSP_JSON Hook1_ty ctx0 = some (Artifact.py_callable hook1_check)
    ∧ ∀ v, check_eval (Artifact.py_callable hook1_check) v = some (hook1_check v) :=
  C2_theorem Hook1_ty ctx0 hook1_check _ rfl rfl

/-- Like ctx_flag but answering ext 5 for flag-true lookups; it agrees with
ctx_flag on flag-false lookups only. -/
def ctx_flag3 : Ctx := Ctx.mk (fun _ _ b => if b then some (Artifact.ext 5) else some (Artifact.ext 1)) false

/-- Like ctx_fwd except on the forward reference "X" itself, where it answers
ext 7 instead of ext 1. -/
def ctx_fwd2 : Ctx :=
  Ctx.mk (fun _ t _ =>
    match t with
    | TypeAnn.fwd s => if s = "X" then some (Artifact.ext 7) else some (Artifact.ext 1)
    | _ => some (Artifact.ext 0)) true

/-- An attrs class with one field whose declared type is the forward
reference "X", resolvable to int in the owning module namespace. -/
def rec_fwd_ty : Ty :=
  Ty.mk "RecFwd"
    (some [AttrsField.mk "a" (TypeAnn.fwd "X") Dflt.sentinel true])
    none false none none [] [] none none false none [("X", int_ty)]

/-- A named tuple with one field whose declared type is the forward
reference "X", resolvable to int in the owning module namespace. -/
def nt_fwd_ty : Ty :=
  Ty.mk "NTFwd" none none true (some [("a", TypeAnn.fwd "X")]) (some ["a"])
    [] [] none none false none [("X", int_ty)]

/-- Unfolding of the inner-map builder of the record rule on a cons cell. -/
theorem attrs_inner_map_cons (verb : Verb) (typ : Ty) (ctx : Ctx)
    (f : AttrsField) (fs : List AttrsField) :
    attrs_inner_map verb typ ctx (f :: fs)
      = (if f.init then [attrs_entry verb typ ctx f] else [])
        ++ attrs_inner_map verb typ ctx fs := by
  unfold attrs_inner_map
  rw [List.filterMap_cons]
  by_cases hi : f.init <;> simp [hi]

/-- The record rule's per-field lookups all carry accept_missing = true: its
inner map is unchanged across contexts that agree on flag-true lookups. -/
theorem attrs_inner_map_congr (verb : Verb) (typ : Ty) (c1 c2 : Ctx)
    (h : ∀ v t, c1.lookup v t true = c2.lookup v t true)
    (fields : List AttrsField) :
    attrs_inner_map verb typ c1 fields = attrs_inner_map verb typ c2 fields := by
  induction fields with
  | nil => rfl
  | cons f fs ih =>
    rw [attrs_inner_map_cons, attrs_inner_map_cons, ih]
    unfold attrs_entry
    rw [h]

/-- The named-tuple rule's per-field lookups all carry accept_missing =
true. -/
theorem named_inner_map_congr (verb : Verb) (typ : Ty) (c1 c2 : Ctx)
    (h : ∀ v t, c1.lookup v t true = c2.lookup v t true)
    (fields : List (String × TypeAnn)) :
    named_inner_map verb typ c1 fields = named_inner_map verb typ c2 fields := by
  induction fields with
  | nil => rfl
  | cons nt fs ih =>
    unfold named_inner_map at ih ⊢
    rw [List.map_cons, List.map_cons, ih]
    unfold named_entry
    rw [h]

/-- The tuples rule's per-element lookups all carry the context's own default
accept_missing flag. -/
theorem tuples_inner_congr (verb : Verb) (c1 c2 : Ctx)
    (h : ∀ v t, c1.lookup v t c1.accept_missing_default
      = c2.lookup v t c2.accept_missing_default)
    (args : List TupleArg) :
    tuples_inner verb c1 args = tuples_inner verb c2 args := by
  induction args with
  | nil => rfl
  | cons a as ih =>
    unfold tuples_inner at ih ⊢
    rw [List.map_cons, List.map_cons, ih, h]

/-- C3: counterexample. ctx_flag answers ext 0 exactly when the
accept-missing flag it receives is true, and its own default for the flag is
false. The tuples rule, applied to Tuple[int], embeds ext 1: its element
lookup did not set the accept-missing flag to true. -/
theorem C3_counterexample :
    tuples JSON2PY tup1_ty ctx_flag
      = some (Artifact.convert_tuple_as_list [some (Artifact.ext 1)] PyCon.tuple)
    ∧ ctx_flag.lookup JSON2PY (TypeAnn.ty int_ty) true = some (Artifact.ext 0)
    ∧ Artifact.ext 1 ≠ Artifact.ext 0 :=
  ⟨rfl, rfl, by simp⟩

/-- C3 (amended): the record rule and the named-tuple rule perform every
per-field recursive lookup with the accept-missing flag set to true — two
contexts that agree on all flag-true lookups yield identical artifacts for
every verb and type — while the tuples rule omits the flag at its call site
and consults the context's own default instead: its artifacts are determined
by the lookups at each context's default flag. -/
theorem C3_amended (c1 c2 : Ctx) (verb : Verb) (typ : Ty) :
    ((∀ v t, c1.lookup v t true = c2.lookup v t true) →
      attrs_classes verb typ c1 = attrs_classes verb typ c2
      ∧ named_tuples verb typ c1 = named_tuples verb typ c2)
    ∧ ((∀ v t, c1.lookup v t c1.accept_missing_default
          = c2.lookup v t c2.accept_missing_default) →
      tuples verb typ c1 = tuples verb typ c2) := by
  constructor
  · intro hagree
    constructor
    · unfold attrs_classes
      simp only [attrs_inner_map_congr verb typ c1 c2 hagree]
    · unfold named_tuples
      simp only [named_inner_map_congr verb typ c1 c2 hagree]
  · intro hagree
    unfold tuples
    simp only [tuples_inner_congr verb c1 c2 hagree]

/-- C3 (witness): ctx_flag and ctx_flag2 agree on flag-true lookups (and
differ on flag-false ones), so the record and named-tuple artifacts coincide;
ctx_flag and ctx_flag3 agree on default-flag lookups (and differ on flag-true
ones), so the tuples artifacts coincide. -/
theorem C3_witness :
    attrs_classes JSON2PY Flat1_ty ctx_flag = attrs_classes JSON2PY Flat1_ty ctx_flag2
    ∧ named_tuples JSON2PY Named1_ty ctx_flag = named_tuples JSON2PY Named1_ty ctx_flag2
    ∧ tuples JSON2PY tup1_ty ctx_flag = tuples JSON2PY tup1_ty ctx_flag3 :=
  ⟨((C3_amended ctx_flag ctx_flag2 JSON2PY Flat1_ty).1 (fun _ _ => rfl)).1,
   ((C3_amended ctx_flag ctx_flag2 JSON2PY Named1_ty).1 (fun _ _ => rfl)).2,
   (C3_amended ctx_flag ctx_flag3 JSON2PY tup1_ty).2 (fun _ _ => rfl)⟩

/-- Resolving a forward reference is idempotent: the annotations handed to
the context by the record and named-tuple rules are fixed points of the
resolver. -/
theorem resolve_fwd_ref_idem (ann : TypeAnn) (owner : Ty) :
    resolve_fwd_ref (resolve_fwd_ref ann owner) owner = resolve_fwd_ref ann owner := by
  cases ann with
  | noneAnn => rfl
  | ty t => rfl
  | fwd s =>
    unfold resolve_fwd_ref
    cases h : List.lookup s owner.env with
    | some t => simp [h]
    | none => simp [h]

/-- The record rule's inner map consults the context only at annotations that
are fixed points of the forward-reference resolver. -/
theorem attrs_inner_map_congr_res (verb : Verb) (typ : Ty) (c1 c2 : Ctx)
    (h : ∀ v t, resolve_fwd_ref t typ = t → c1.lookup v t true = c2.lookup v t true)
    (fields : List AttrsField) :
    attrs_inner_map verb typ c1 fields = attrs_inner_map verb typ c2 fields := by
  induction fields with
  | nil => rfl
  | cons f fs ih =>
    rw [attrs_inner_map_cons, attrs_inner_map_cons, ih]
    unfold attrs_entry
    rw [h verb (resolve_fwd_ref f.type typ) (resolve_fwd_ref_idem f.type typ)]

/-- The named-tuple rule's inner map consults the context only at annotations
that are fixed points of the forward-reference resolver. -/
theorem named_inner_map_congr_res (verb : Verb) (typ : Ty) (c1 c2 : Ctx)
    (h : ∀ v t, resolve_fwd_ref t typ = t → c1.lookup v t true = c2.lookup v t true)
    (fields : List (String × TypeAnn)) :
    named_inner_map verb typ c1 fields = named_inner_map verb typ c2 fields := by
  induction fields with
  | nil => rfl
  | cons nt fs ih =>
    unfold named_inner_map at ih ⊢
    rw [List.map_cons, List.map_cons, ih]
    unfold named_entry
    rw [h verb (resolve_fwd_ref nt.2 typ) (resolve_fwd_ref_idem nt.2 typ)]

/-- C4: counterexample. ctx_fwd answers ext 1 exactly on an unresolved
forward reference. The tuples rule, applied to Tuple[X] whose owner resolves
"X" to int, embeds ext 1: the raw forward reference was handed to the
context, not the resolved type, although resolving it would have produced
int and the lookup at the resolved annotation answers ext 0. -/
theorem C4_counterexample :
    tuples JSON2PY tupfwd_ty ctx_fwd
      = some (Artifact.convert_tuple_as_list [some (Artifact.ext 1)] PyCon.tuple)
    ∧ resolve_fwd_ref (TypeAnn.fwd "X") tupfwd_ty = TypeAnn.ty int_ty
    ∧ ctx_fwd.lookup JSON2PY (TypeAnn.ty int_ty) ctx_fwd.accept_missing_default
      = some (Artifact.ext 0)
    ∧ Artifact.ext 1 ≠ Artifact.ext 0 :=
  ⟨rfl, rfl, rfl, by simp⟩

/-- C4 (amended): in the record rule and the named-tuple rule every declared
field type is passed through the forward-reference resolver (relative to the
owning type) before the recursive lookup — two contexts that agree on
flag-true lookups at all resolver fixed points yield identical artifacts —
while the tuples rule hands each element annotation to the context
unresolved. -/
theorem C4_amended (typ : Ty) (c1 c2 : Ctx)
    (hagree : ∀ v t, resolve_fwd_ref t typ = t →
      c1.lookup v t true = c2.lookup v t true)
    (verb : Verb) :
    attrs_classes verb typ c1 = attrs_classes verb typ c2
    ∧ named_tuples verb typ c1 = named_tuples verb typ c2 := by
  constructor
  · unfold attrs_classes
    simp only [attrs_inner_map_congr_res verb typ c1 c2 hagree]
  · unfold named_tuples
    simp only [named_inner_map_congr_res verb typ c1 c2 hagree]

/-- C4 (witness): ctx_fwd and ctx_fwd2 differ precisely at the forward
reference "X", which the owner resolves to int; because the record and
named-tuple rules resolve before looking up, their artifacts do not see the
difference. -/
theorem C4_witness :
    attrs_classes JSON2PY rec_fwd_ty ctx_fwd = attrs_classes JSON2PY rec_fwd_ty ctx_fwd2
    ∧ named_tuples JSON2PY nt_fwd_ty ctx_fwd = named_tuples JSON2PY nt_fwd_ty ctx_fwd2 := by
  have hagree1 : ∀ v t, resolve_fwd_ref t rec_fwd_ty = t →
      ctx_fwd.lookup v t true = ctx_fwd2.lookup v t true := by
    intro v t ht
    cases t with
    | noneAnn => rfl
    | ty u => rfl
    | fwd s =>
      by_cases hs : s = "X"
      · subst hs
        exact absurd ht (by intro hcon; exact TypeAnn.noConfusion hcon)
      · show some (Artifact.ext 1)
          = (if s = "X" then some (Artifact.ext 7) else some (Artifact.ext 1))
        rw [if_neg hs]
  have hagree2 : ∀ v t, resolve_fwd_ref t nt_fwd_ty = t →
      ctx_fwd.lookup v t true = ctx_fwd2.lookup v t true := by
    intro v t ht
    cases t with
    | noneAnn => rfl
    | ty u => rfl
    | fwd s =>
      by_cases hs : s = "X"
      · subst hs
        exact absurd ht (by intro hcon; exact TypeAnn.noConfusion hcon)
      · show some (Artifact.ext 1)
          = (if s = "X" then some (Artifact.ext 7) else some (Artifact.ext 1))
        rw [if_neg hs]
  exact ⟨(C4_amended rec_fwd_ty ctx_fwd ctx_fwd2 hagree1 JSON2PY).1,
         (C4_amended nt_fwd_ty ctx_fwd ctx_fwd2 hagree2 JSON2PY).2⟩

/-- A named tuple with a single required field a of type int. -/
def NT1_ty : Ty :=
  Ty.mk "NT1" none none true (some [("a", TypeAnn.ty int_ty)]) (some ["a"])
    [] [] none none false none []

/-- A verb outside the five supported ones. -/
def other_verb : Verb := "to_yaml"

/-- A tuple subclass that exposes neither _field_types nor _fields. -/
def bare_sub_ty : Ty :=
  Ty.mk "TupleSub" none none true none none [] [] none none false none []

/-- The entry built by the record rule for the pattern verb. -/
theorem attrs_entry_pattern (typ : Ty) (ctx : Ctx) (f : AttrsField) :
    attrs_entry PATTERN typ ctx f
      = (f.name, ctx.lookup PATTERN (resolve_fwd_ref f.type typ) true,
         Extra.req (is_attrs_field_required f)) := by
  unfold attrs_entry
  rw [if_neg (by decide), if_pos (by decide)]

/-- The entry built by the named-tuple rule for the pattern verb. -/
theorem named_entry_pattern (typ : Ty) (ctx : Ctx) (nt : String × TypeAnn) :
    named_entry PATTERN typ ctx nt
      = (nt.1, ctx.lookup PATTERN (resolve_fwd_ref nt.2 typ) true,
         Extra.req (!(defaults_get typ nt.1).isSome)) := by
  unfold named_entry
  rw [if_neg (by decide), if_pos (by decide)]

/-- The object-pattern entries of the record rule are exactly the required
init fields, in declared order, each mapped to its derived pattern with the
unknown marker substituted when the lookup produced none. -/
theorem attrs_pattern_entries (typ : Ty) (ctx : Ctx) (fields : List AttrsField) :
    ((attrs_inner_map PATTERN typ ctx fields).filter (fun e => Extra.isReq e.2.2)).map
        (fun e => (Artifact.stringExact e.1, some (Option.getD e.2.1 Artifact.unkown)))
      = (fields.filter (fun f => f.init && is_attrs_field_required f)).map
        (fun f => (Artifact.stringExact f.name,
          some ((ctx.lookup PATTERN (resolve_fwd_ref f.type typ) true).getD
            Artifact.unkown))) := by
  induction fields with
  | nil => rfl
  | cons f fs ih =>
    rw [attrs_inner_map_cons, List.filter_append, List.map_append, ih,
      List.filter_cons]
    by_cases hi : f.init
    · by_cases hr : is_attrs_field_required f
      · simp [hi, hr, attrs_entry_pattern, Extra.isReq]
      · simp [hi, hr, attrs_entry_pattern, Extra.isReq]
    · simp [hi]

/-- The object-pattern entries of the named-tuple rule are exactly the
required fields, in declared order, each mapped to the raw lookup result. -/
theorem named_pattern_entries (typ : Ty) (ctx : Ctx)
    (fields : List (String × TypeAnn)) :
    ((named_inner_map PATTERN typ ctx fields).filter (fun e => Extra.isReq e.2.2)).map
        (fun e => (Artifact.stringExact e.1, e.2.1))
      = (fields.filter (fun nt => !(defaults_get typ nt.1).isSome)).map
        (fun nt => (Artifact.stringExact nt.1,
          ctx.lookup PATTERN (resolve_fwd_ref nt.2 typ) true)) := by
  induction fields with
  | nil => rfl
  | cons nt fs ih =>
    have hcons : named_inner_map PATTERN typ ctx (nt :: fs)
        = named_entry PATTERN typ ctx nt :: named_inner_map PATTERN typ ctx fs := rfl
    rw [hcons, List.filter_cons, List.filter_cons]
    by_cases hd : (defaults_get typ nt.1).isSome
    · simpa [named_entry_pattern, Extra.isReq, hd] using ih
    · simpa [named_entry_pattern, Extra.isReq, hd] using ih

/-- C5: counterexample. For the named tuple NT1 with required field a, in a
context whose lookup produces no pattern, the named-tuple rule inserts that
missing result as is: the field maps to none, not to the unknown marker the
claim requires. -/
theorem C5_counterexample :
    named_tuples PATTERN NT1_ty ctx0
      = some (Artifact.objectExact [(Artifact.stringExact "a", none)])
    ∧ (none : Option Artifact) ≠ some Artifact.unkown :=
  ⟨rfl, by simp⟩

/-- C5 (amended): for the pattern verb both rules build an object pattern
over exactly the required fields (no default), in declared order; the record
rule maps each required field to its derived pattern with the unknown marker
substituted when the recursive lookup produced no pattern, while the
named-tuple rule maps each required field to the raw lookup result, with no
unknown-marker substitution. -/
theorem C5_amended (typ : Ty) (ctx : Ctx) :
    (∀ fields, attrs_fields_of typ = some fields →
      attrs_classes PATTERN typ ctx = some (Artifact.objectExact
        ((fields.filter (fun f => f.init && is_attrs_field_required f)).map
          (fun f => (Artifact.stringExact f.name,
            some ((ctx.lookup PATTERN (resolve_fwd_ref f.type typ) true).getD
              Artifact.unkown))))))
    ∧ (∀ fields, typ.tuple_subclass = true → named_tuple_fields typ = some fields →
      named_tuples PATTERN typ ctx = some (Artifact.objectExact
        ((fields.filter (fun nt => !(defaults_get typ nt.1).isSome)).map
          (fun nt => (Artifact.stringExact nt.1,
            ctx.lookup PATTERN (resolve_fwd_ref nt.2 typ) true))))) := by
  constructor
  · intro fields hm
    simp only [attrs_classes, hm, reduceIte]
    rw [if_neg (by decide), if_neg (by decide), if_neg (by decide),
      if_neg (by decide), if_neg (by decide), attrs_pattern_entries]
  · intro fields hsub hnf
    have hguard : ¬ (PATTERN ∉ five_verbs ∨ typ.tuple_subclass = false) := by
      rintro (h | h)
      · exact absurd h (by decide)
      · rw [hsub] at h
        exact Bool.noConfusion h
    simp only [named_tuples, hnf, reduceIte]
    rw [if_neg hguard, if_neg (by decide), if_neg (by decide), if_neg (by decide),
      if_neg (by decide), named_pattern_entries]

/-- C5 (witness): Flat1's required field a maps to the unknown marker under
the no-match context, while Named1's required field a maps to none. -/
theorem C5_witness :
    attrs_classes PATTERN Flat1_ty ctx0
      = some (Artifact.objectExact [(Artifact.stringExact "a", some Artifact.unkown)])
    ∧ named_tuples PATTERN Named1_ty ctx0
      = some (Artifact.objectExact [(Artifact.stringExact "a", none)]) :=
  ⟨(C5_amended Flat1_ty ctx0).1 _ rfl, (C5_amended Named1_ty ctx0).2 _ rfl rfl⟩

/-- C6: outside the five supported verbs every rule declines, and a type
without the expected metadata shape makes each rule decline: no
__attrs_attrs__ and no __dataclass_fields__ for the record rule, not a tuple
subclass or no _field_types/_fields for the named-tuple rule, no tuple
origin for the tuples rule; and an Ellipsis argument makes the tuples rule
decline for every verb. Declining is returning the sentinel none, never an
exception (all embedded rules are total functions). -/
theorem C6_theorem (verb : Verb) (typ : Ty) (ctx : Ctx) :
    (verb ∉ five_verbs →
      attrs_classes verb typ ctx = none ∧ named_tuples verb typ ctx = none
        ∧ tuples verb typ ctx = none)
    ∧ (typ.attrs_attrs = none → typ.dataclass_fields = none →
      attrs_classes verb typ ctx = none)
    ∧ (typ.tuple_subclass = false → named_tuples verb typ ctx = none)
    ∧ (typ.field_types = none → typ.fields_list = none →
      named_tuples verb typ ctx = none)
    ∧ (typ.tuple_args = none → tuples verb typ ctx = none)
    ∧ (∀ args, typ.tuple_args = some args → args.any TupleArg.isEllipsis = true →
      tuples verb typ ctx = none) := by
  refine ⟨?_, ?_, ?_, ?_, ?_, ?_⟩
  · intro hv
    refine ⟨?_, ?_, ?_⟩
    · unfold attrs_classes
      rw [if_pos hv]
    · unfold named_tuples
      rw [if_pos (Or.inl hv)]
    · unfold tuples
      rw [if_pos hv]
  · intro ha hd
    have hfo : attrs_fields_of typ = none := by
      simp only [attrs_fields_of, ha, hd]
    simp only [attrs_classes, hfo, ite_self]
  · intro hs
    unfold named_tuples
    rw [if_pos (Or.inr hs)]
  · intro hft hfl
    have hnf : named_tuple_fields typ = none := by
      simp only [named_tuple_fields, hft, hfl]
    simp only [named_tuples, hnf, ite_self]
  · intro hta
    simp only [tuples, hta, ite_self]
  · intro args hta he
    simp [tuples, hta, he]

/-- C6 (witness): concrete declines — an unsupported verb on every rule, a
leaf type on every rule, a tuple subclass with no field tables, and the
homogeneous Tuple[int, ...]. -/
theorem C6_witness :
    (attrs_classes other_verb int_ty ctx0 = none
      ∧ named_tuples other_verb int_ty ctx0 = none
      ∧ tuples other_verb int_ty ctx0 = none)
    ∧ attrs_classes JSON2PY int_ty ctx0 = none
    ∧ named_tuples JSON2PY int_ty ctx0 = none
    ∧ named_tuples PY2JSON bare_sub_ty ctx0 = none
    ∧ tuples INSP_JSON int_ty ctx0 = none
    ∧ tuples PATTERN tupell_ty ctx0 = none :=
  ⟨(C6_theorem other_verb int_ty ctx0).1 (by decide),
   (C6_theorem JSON2PY int_ty ctx0).2.1 rfl rfl,
   (C6_theorem JSON2PY int_ty ctx0).2.2.1 rfl,
   (C6_theorem PY2JSON bare_sub_ty ctx0).2.2.2.1 rfl rfl,
   (C6_theorem INSP_JSON int_ty ctx0).2.2.2.2.1 rfl,
   (C6_theorem PATTERN tupell_ty ctx0).2.2.2.2.2 _ rfl rfl⟩

/-- Flat2: an attrs class with init field a and non-init (derived) field c. -/
def Flat2_ty : Ty :=
  Ty.mk "Flat2"
    (some [AttrsField.mk "a" (TypeAnn.ty int_ty) Dflt.sentinel true,
           AttrsField.mk "c" (TypeAnn.ty int_ty) Dflt.sentinel false])
    none false none none [] [] none none false none []

/-- The entry built by the named-tuple rule for the decode verb. -/
theorem named_entry_json2py (typ : Ty) (ctx : Ctx) (nt : String × TypeAnn) :
    named_entry JSON2PY typ ctx nt
      = (nt.1, ctx.lookup JSON2PY (resolve_fwd_ref nt.2 typ) true, Extra.nil) := by
  unfold named_entry
  rw [if_neg (by decide), if_neg (by decide)]

/-- The entry built by the named-tuple rule for the JSON-validate verb. -/
theorem named_entry_inspjson (typ : Ty) (ctx : Ctx) (nt : String × TypeAnn) :
    named_entry INSP_JSON typ ctx nt
      = (nt.1, ctx.lookup INSP_JSON (resolve_fwd_ref nt.2 typ) true,
         Extra.req (!(defaults_get typ nt.1).isSome)) := by
  unfold named_entry
  rw [if_neg (by decide), if_pos (by decide)]

/-- The entry built by the named-tuple rule for the encode verb. -/
theorem named_entry_py2json (typ : Ty) (ctx : Ctx) (nt : String × TypeAnn) :
    named_entry PY2JSON typ ctx nt
      = (nt.1, ctx.lookup PY2JSON (resolve_fwd_ref nt.2 typ) true,
         Extra.dflt (match defaults_get typ nt.1 with
           | some v => Dflt.value v
           | none => Dflt.sentinel)) := by
  unfold named_entry
  rw [if_pos rfl]

/-- C7: for every named-tuple type, position by position, the required flag
recorded for the JSON-validate verb is true exactly when the default
recorded for the encode verb is the SENTINEL absent marker. -/
theorem C7_theorem (typ : Ty) (ctx : Ctx) (pre : Value → Value)
    (ph : Option String) (im dm : List (String × Option Artifact × Extra))
    (ha : named_tuples INSP_JSON typ ctx = some (Artifact.check_dict pre im))
    (hb : named_tuples PY2JSON typ ctx = some (Artifact.convert_attrs_to_dict ph dm)) :
    List.Forall₂
      (fun e d => e.1 = d.1
        ∧ ∃ r dd, e.2.2 = Extra.req r ∧ d.2.2 = Extra.dflt dd
          ∧ (r = true ↔ dd = Dflt.sentinel)) im dm := by
  unfold named_tuples at ha hb
  cases hsub : typ.tuple_subclass with
  | false =>
    rw [if_pos (Or.inr hsub)] at ha
    exact absurd ha (by simp)
  | true =>
    have hg : ∀ v : Verb, v ∈ five_verbs →
        ¬(v ∉ five_verbs ∨ typ.tuple_subclass = false) := by
      intro v hv
      rintro (h | h)
      · exact h hv
      · rw [hsub] at h
        exact Bool.noConfusion h
    rw [if_neg (hg INSP_JSON (by decide))] at ha
    rw [if_neg (hg PY2JSON (by decide))] at hb
    cases hnf : named_tuple_fields typ with
    | none =>
      simp only [hnf] at ha
      exact absurd ha (by simp)
    | some fields =>
      simp only [hnf] at ha hb
      rw [if_neg (by decide), if_neg (by decide), if_neg (by decide),
        if_pos trivial] at ha
      rw [if_neg (by decide), if_neg (by decide), if_pos trivial] at hb
      obtain ⟨-, him⟩ := Artifact.check_dict.inj (Option.some.inj ha)
      obtain ⟨-, hdm⟩ := Artifact.convert_attrs_to_dict.inj (Option.some.inj hb)
      subst him hdm
      clear ha hb hnf
      induction fields with
      | nil => exact List.Forall₂.nil
      | cons nt fs ih =>
        have h1 : named_inner_map INSP_JSON typ ctx (nt :: fs)
            = named_entry INSP_JSON typ ctx nt
              :: named_inner_map INSP_JSON typ ctx fs := rfl
        have h2 : named_inner_map PY2JSON typ ctx (nt :: fs)
            = named_entry PY2JSON typ ctx nt
              :: named_inner_map PY2JSON typ ctx fs := rfl
        rw [h1, h2]
        refine List.Forall₂.cons ?_ ih
        rw [named_entry_inspjson, named_entry_py2json]
        refine ⟨rfl, ?_⟩
        cases hdg : defaults_get typ nt.1 with
        | none =>
          exact ⟨true, Dflt.sentinel, rfl, rfl, by simp⟩
        | some v =>
          refine ⟨false, Dflt.value v, rfl, rfl, ?_⟩
          constructor
          · intro h
            exact Bool.noConfusion h
          · intro h
            exact Dflt.noConfusion h

/-- C7 (witness): Named1, whose field a has no default and whose field b
defaults to "default". -/
theorem C7_witness :
    List.Forall₂
      (fun e d => e.1 = d.1
        ∧ ∃ r dd, e.2.2 = Extra.req r ∧ d.2.2 = Extra.dflt dd
          ∧ (r = true ↔ dd = Dflt.sentinel))
      [("a", (none : Option Artifact), Extra.req true),
       ("b", (none : Option Artifact), Extra.req false)]
      [("a", (none : Option Artifact), Extra.dflt Dflt.sentinel),
       ("b", (none : Option Artifact),
        Extra.dflt (Dflt.value (Value.vstr "default")))] :=
  C7_theorem Named1_ty ctx0 identity none _ _ rfl rfl

/-- The names in the record rule's inner map are exactly the names of the
init fields, in declared order. -/
theorem attrs_inner_map_names (verb : Verb) (typ : Ty) (ctx : Ctx)
    (fields : List AttrsField) :
    (attrs_inner_map verb typ ctx fields).map (fun e => e.1)
      = (fields.filter (fun f => f.init)).map AttrsField.name := by
  induction fields with
  | nil => rfl
  | cons f fs ih =>
    rw [attrs_inner_map_cons, List.map_append, ih, List.filter_cons]
    by_cases hi : f.init
    · simp [hi, attrs_entry]
    · simp [hi]

/-- C8: the record rule builds every artifact over exactly the init fields:
a field with init = false appears in no artifact's field list. -/
theorem C8_theorem (typ : Ty) (ctx : Ctx) (fields : List AttrsField)
    (hm : attrs_fields_of typ = some fields) :
    (∃ pre im, attrs_classes JSON2PY typ ctx
        = some (Artifact.convert_dict_to_attrs pre im typ)
        ∧ im.map (fun e => e.1) = (fields.filter (fun f => f.init)).map AttrsField.name)
    ∧ (∃ ph im, attrs_classes PY2JSON typ ctx
        = some (Artifact.convert_attrs_to_dict ph im)
        ∧ im.map (fun e => e.1) = (fields.filter (fun f => f.init)).map AttrsField.name)
    ∧ (typ.json_check = none → ∃ pre im, attrs_classes INSP_JSON typ ctx
        = some (Artifact.check_dict pre im)
        ∧ im.map (fun e => e.1) = (fields.filter (fun f => f.init)).map AttrsField.name)
    ∧ (∃ entries, attrs_classes PATTERN typ ctx = some (Artifact.objectExact entries)
        ∧ ∀ p ∈ entries, ∃ f, f ∈ fields ∧ f.init = true
            ∧ p.1 = Artifact.stringExact f.name) := by
  refine ⟨?_, ?_, ?_, ?_⟩
  · have h : attrs_classes JSON2PY typ ctx
        = some (Artifact.convert_dict_to_attrs (typ.json_pre_decode.getD identity)
            (attrs_inner_map JSON2PY typ ctx fields) typ) := by
      simp only [attrs_classes, hm, reduceIte]
      rw [if_neg (by decide), if_neg (by decide)]
    exact ⟨_, _, h, attrs_inner_map_names JSON2PY typ ctx fields⟩
  · have h : attrs_classes PY2JSON typ ctx
        = some (Artifact.convert_attrs_to_dict
            (if typ.has_json_post_encode then some json_post_encode_name else none)
            (attrs_inner_map PY2JSON typ ctx fields)) := by
      simp only [attrs_classes, hm, reduceIte]
      rw [if_neg (by decide), if_neg (by decide), if_neg (by decide)]
    exact ⟨_, _, h, attrs_inner_map_names PY2JSON typ ctx fields⟩
  · intro hchk
    have h : attrs_classes INSP_JSON typ ctx
        = some (Artifact.check_dict (typ.json_pre_decode.getD identity)
            (attrs_inner_map INSP_JSON typ ctx fields)) := by
      simp only [attrs_classes, hm, hchk, reduceIte]
      rw [if_neg (by decide), if_neg (by decide), if_neg (by decide),
        if_neg (by decide)]
    exact ⟨_, _, h, attrs_inner_map_names INSP_JSON typ ctx fields⟩
  · have h : attrs_classes PATTERN typ ctx = some (Artifact.objectExact
        ((fields.filter (fun f => f.init && is_attrs_field_required f)).map
          (fun f => (Artifact.stringExact f.name,
            some ((ctx.lookup PATTERN (resolve_fwd_ref f.type typ) true).getD
              Artifact.unkown))))) := by
      simp only [attrs_classes, hm, reduceIte]
      rw [if_neg (by decide), if_neg (by decide), if_neg (by decide),
        if_neg (by decide), if_neg (by decide), attrs_pattern_entries]
    refine ⟨_, h, ?_⟩
    intro p hp
    obtain ⟨f, hf, rfl⟩ := List.mem_map.1 hp
    obtain ⟨hfin, hq⟩ := List.mem_filter.1 hf
    rw [Bool.and_eq_true] at hq
    exact ⟨f, hfin, hq.1, rfl⟩

/-- C8 (witness): Flat2 has init field a and non-init field c; only a
appears. -/
theorem C8_witness :
    (∃ pre im, attrs_classes JSON2PY Flat2_ty ctx0
        = some (Artifact.convert_dict_to_attrs pre im Flat2_ty)
        ∧ im.map (fun e => e.1) = ["a"])
    ∧ (∃ pre im, attrs_classes INSP_JSON Flat2_ty ctx0
        = some (Artifact.check_dict pre im)
        ∧ im.map (fun e => e.1) = ["a"]) := by
  constructor
  · obtain ⟨pre, im, h1, h2⟩ := (C8_theorem Flat2_ty ctx0 _ rfl).1
    exact ⟨pre, im, h1, h2.trans rfl⟩
  · obtain ⟨pre, im, h1, h2⟩ := (C8_theorem Flat2_ty ctx0 _ rfl).2.2.1 rfl
    exact ⟨pre, im, h1, h2.trans rfl⟩

/-- C9: when a record-like type defines no hooks, the decoder and the
generated JSON-validator carry the identity pre-decode hook, and the encoder
carries the absent (None) post-encode hook; hook lookup is a presence test
only, and the artifacts embed the defaults unapplied. -/
theorem C9_theorem (typ : Ty) (ctx : Ctx) (fields : List AttrsField)
    (hm : attrs_fields_of typ = some fields)
    (hpre : typ.json_pre_decode = none)
    (hpost : typ.has_json_post_encode = false)
    (hchk : typ.json_check = none) :
    attrs_classes JSON2PY typ ctx
      = some (Artifact.convert_dict_to_attrs identity
          (attrs_inner_map JSON2PY typ ctx fields) typ)
    ∧ attrs_classes PY2JSON typ ctx
      = some (Artifact.convert_attrs_to_dict none
          (attrs_inner_map PY2JSON typ ctx fields))
    ∧ attrs_classes INSP_JSON typ ctx
      = some (Artifact.check_dict identity
          (attrs_inner_map INSP_JSON typ ctx fields)) := by
  refine ⟨?_, ?_, ?_⟩
  · simp only [attrs_classes, hm, hpre, reduceIte]
    rw [if_neg (by decide), if_neg (by decide)]
    rfl
  · simp only [attrs_classes, hm, hpost, reduceIte]
    rw [if_neg (by decide), if_neg (by decide), if_neg (by decide)]
    rfl
  · simp only [attrs_classes, hm, hpre, hchk, reduceIte]
    rw [if_neg (by decide), if_neg (by decide), if_neg (by decide),
      if_neg (by decide)]
    rfl

/-- C9 (witness): Flat1 defines none of the three hooks. -/
theorem C9_witness :
    attrs_classes JSON2PY Flat1_ty ctx0
      = some (Artifact.convert_dict_to_attrs identity
          [("a", none, Extra.nil), ("b", none, Extra.nil)] Flat1_ty)
    ∧ attrs_classes PY2JSON Flat1_ty ctx0
      = some (Artifact.convert_attrs_to_dict none
          [("a", none, Extra.dflt Dflt.sentinel),
           ("b", none, Extra.dflt (Dflt.value (Value.vstr "default")))])
    ∧ attrs_classes INSP_JSON Flat1_ty ctx0
      = some (Artifact.check_dict identity
          [("a", none, Extra.req true), ("b", none, Extra.req false)]) :=
  C9_theorem Flat1_ty ctx0 _ rfl rfl rfl rfl

/-- C10: a tuple subclass exposing _fields but no _field_types still matches
the named-tuple rule; every field's declared type is None, handed to the
context with accept_missing = true, and all five artifacts are built over
those fields in _fields order. -/
theorem C10_theorem (typ : Ty) (ctx : Ctx) (names : List String)
    (hsub : typ.tuple_subclass = true)
    (hft : typ.field_types = none)
    (hfl : typ.fields_list = some names) :
    named_tuples JSON2PY typ ctx
      = some (Artifact.convert_dict_to_attrs identity
          (names.map (fun n => (n, ctx.lookup JSON2PY TypeAnn.noneAnn true, Extra.nil)))
          typ)
    ∧ named_tuples PY2JSON typ ctx
      = some (Artifact.convert_attrs_to_dict none
          (names.map (fun n => (n, ctx.lookup PY2JSON TypeAnn.noneAnn true,
            Extra.dflt (match defaults_get typ n with
              | some v => Dflt.value v
              | none => Dflt.sentinel)))))
    ∧ named_tuples INSP_PY typ ctx = some (Artifact.check_isinst typ)
    ∧ named_tuples INSP_JSON typ ctx
      = some (Artifact.check_dict identity
          (names.map (fun n => (n, ctx.lookup INSP_JSON TypeAnn.noneAnn true,
            Extra.req (!(defaults_get typ n).isSome)))))
    ∧ named_tuples PATTERN typ ctx
      = some (Artifact.objectExact
          ((names.filter (fun n => !(defaults_get typ n).isSome)).map
            (fun n => (Artifact.stringExact n,
              ctx.lookup PATTERN TypeAnn.noneAnn true)))) := by
  have hnf : named_tuple_fields typ
      = some (names.map (fun n => (n, TypeAnn.noneAnn))) := by
    simp only [named_tuple_fields, hft, hfl]
  have hg : ∀ v : Verb, v ∈ five_verbs →
      ¬(v ∉ five_verbs ∨ typ.tuple_subclass = false) := by
    intro v hv
    rintro (h | h)
    · exact h hv
    · rw [hsub] at h
      exact Bool.noConfusion h
  have hmap : ∀ v : Verb,
      named_inner_map v typ ctx (names.map (fun n => (n, TypeAnn.noneAnn)))
        = names.map (fun n => named_entry v typ ctx (n, TypeAnn.noneAnn)) := by
    intro v
    unfold named_inner_map
    rw [List.map_map]
    rfl
  have hJ : List.map (fun n => named_entry JSON2PY typ ctx (n, TypeAnn.noneAnn)) names
      = names.map (fun n => (n, ctx.lookup JSON2PY TypeAnn.noneAnn true, Extra.nil)) := by
    apply List.map_congr_left
    intro n _
    rw [named_entry_json2py]
    rfl
  have hP : List.map (fun n => named_entry PY2JSON typ ctx (n, TypeAnn.noneAnn)) names
      = names.map (fun n => (n, ctx.lookup PY2JSON TypeAnn.noneAnn true,
          Extra.dflt (match defaults_get typ n with
            | some v => Dflt.value v
            | none => Dflt.sentinel))) := by
    apply List.map_congr_left
    intro n _
    rw [named_entry_py2json]
    rfl
  have hI : List.map (fun n => named_entry INSP_JSON typ ctx (n, TypeAnn.noneAnn)) names
      = names.map (fun n => (n, ctx.lookup INSP_JSON TypeAnn.noneAnn true,
          Extra.req (!(defaults_get typ n).isSome))) := by
    apply List.map_congr_left
    intro n _
    rw [named_entry_inspjson]
    rfl
  refine ⟨?_, ?_, ?_, ?_, ?_⟩
  · simp only [named_tuples, hnf, reduceIte]
    rw [if_neg (hg JSON2PY (by decide)), if_neg (by decide), hmap, hJ]
  · simp only [named_tuples, hnf, reduceIte]
    rw [if_neg (hg PY2JSON (by decide)), if_neg (by decide), if_neg (by decide),
      hmap, hP]
  · simp only [named_tuples, hnf, reduceIte]
    rw [if_neg (hg INSP_PY (by decide))]
  · simp only [named_tuples, hnf, reduceIte]
    rw [if_neg (hg INSP_JSON (by decide)), if_neg (by decide), if_neg (by decide),
      if_neg (by decide), hmap, hI]
  · simp only [named_tuples, hnf, reduceIte]
    rw [if_neg (hg PATTERN (by decide)), if_neg (by decide), if_neg (by decide),
      if_neg (by decide), if_neg (by decide), named_pattern_entries,
      List.filter_map, List.map_map]
    rfl

/-- C10 (witness): the bare namedtuple Named2 with fields a and b. -/
theorem C10_witness :
    named_tuples JSON2PY Named2_ty ctx0
      = some (Artifact.convert_dict_to_attrs identity
          [("a", none, Extra.nil), ("b", none, Extra.nil)] Named2_ty)
    ∧ named_tuples PY2JSON Named2_ty ctx0
      = some (Artifact.convert_attrs_to_dict none
          [("a", none, Extra.dflt Dflt.sentinel),
           ("b", none, Extra.dflt Dflt.sentinel)])
    ∧ named_tuples INSP_PY Named2_ty ctx0 = some (Artifact.check_isinst Named2_ty)
    ∧ named_tuples INSP_JSON Named2_ty ctx0
      = some (Artifact.check_dict identity
          [("a", none, Extra.req true), ("b", none, Extra.req true)])
    ∧ named_tuples PATTERN Named2_ty ctx0
      = some (Artifact.objectExact
          [(Artifact.stringExact "a", none), (Artifact.stringExact "b", none)]) :=
  C10_theorem Named2_ty ctx0 ["a", "b"] rfl rfl rfl

end JsonSyntax
